import Mathlib

/-!
Verification development for the Text-to-Image Interior Design Generator.

This file gives a shallow embedding of the two core modules of the
repository and proves the frozen claims about them:

* `src/app/services/bert_validation.py` — prompt sanitization, the
  living-room domain gate, the label map and the `STYLE_HINTS`
  Knowledge Base, the allow-list ranking with the explicit-mention
  override, and the explanation synthesizer of
  `validate_prompt_locally`.
* `src/app/services/backend_service.py` — the retry loop of
  `_send_request`, the health probe `_test_connection`, the response
  normalization of `validate_prompt`, and the payload construction of
  `generate_image`.

Modelling conventions.  Python strings are Lean `String`s, handled at
the `List Char` level (the code only deals with ASCII data).  Machine
floats are modelled as `ℚ`.  The BERT classifier call
(`tokenizer`/`model`/`softmax`) is the one piece of the pipeline that
is not source code of this repository; `validate_prompt_locally` is
therefore embedded as a function of the prompt together with a
`ModelOutcome`: either the probability vector over the 7 labels
produced by the softmax of the (deterministically) boosted logits, or
a raised exception.  Softmax is strictly monotone and surjective onto
the open simplex, so the claims — which constrain only the ordering of
and gaps between probabilities — quantify over that vector directly.
Network I/O in `backend_service.py` is embedded by passing the
responses of the remote endpoint as explicit arguments and returning,
next to the result, the trace of outbound calls the code performs.
-/

namespace ITID

/-! ### Character and string helpers (Python semantics, ASCII range) -/

/-- Python whitespace for `str.split` / `\s` (ASCII range). -/
def isWS (c : Char) : Bool :=
  c = ' ' || c = '\t' || c = '\n' || c = '\r' || c = '\x0b' || c = '\x0c'

/-- Python regex `\w` (ASCII range): letters, digits, underscore. -/
def isWordChar (c : Char) : Bool := c.isAlphanum || c = '_'

/-- Python `str.lower()` (ASCII range). -/
def lowerStr (s : String) : String := String.mk (s.toList.map Char.toLower)

/-- `label.replace("_", " ")` — the pattern is the single char `_`. -/
def underscoreToSpace (s : String) : String :=
  String.mk (s.toList.map fun c => if c = '_' then ' ' else c)

/-- Helper for Python `str.title()`: uppercase a letter that follows a
non-letter, lowercase a letter that follows a letter. -/
def titleChars (prevAlpha : Bool) : List Char → List Char
  | [] => []
  | c :: t =>
    if c.isAlpha then (if prevAlpha then c.toLower else c.toUpper) :: titleChars true t
    else c :: titleChars false t

/-- Python `str.title()` (ASCII range): `"mid-century_modern".title()`
is `"Mid-Century_Modern"` — the underscore is kept and starts a new
word. -/
def pyTitle (s : String) : String := String.mk (titleChars false s.toList)

/-- Drop `n` from the front of `l` if `l` starts with `n`. -/
def stripPre : List Char → List Char → Option (List Char)
  | [], l => some l
  | _ :: _, [] => none
  | c :: n, d :: l => if c = d then stripPre n l else none

/-- Python `needle in haystack` substring test. -/
def containsSub (n : List Char) : List Char → Bool
  | [] => n.isEmpty
  | c :: t => (stripPre n (c :: t)).isSome || containsSub n t

/-- Substring test on `String`s (Python `in`). -/
def strContains (n h : String) : Bool := containsSub n.toList h.toList

/-! ### `label_map`, `ALLOWED_STYLES` (bert_validation.py lines 34-42, 197) -/

/-- The id → name label map of the fine-tuned classifier. -/
def label_map : List String :=
  ["coastal", "industrial", "mid-century_modern", "modern", "rustic",
   "scandinavian", "traditional"]

/-- `label_map.get(idx, "unknown")`. -/
def labelName (i : Fin 7) : String := label_map.getD i.val "unknown"

/-- `ALLOWED_STYLES` (line 197): note the entry `"mid-century"`, which is
not string-equal to the label `"mid-century_modern"`. -/
def ALLOWED_STYLES : List String :=
  ["modern", "scandinavian", "industrial", "coastal", "mid-century",
   "rustic", "traditional"]

/-- `allowed_indices = [idx for idx, label in label_map.items() if label in ALLOWED_STYLES]`. -/
def allowedIndices : List (Fin 7) :=
  (List.finRange 7).filter fun i => ALLOWED_STYLES.contains (labelName i)

/-- The six labels that can come out of the allow-list ranking. -/
def uiLabels : List String :=
  ["coastal", "industrial", "modern", "rustic", "scandinavian", "traditional"]

/-! ### The `STYLE_HINTS` Knowledge Base (bert_validation.py lines 44-101) -/

/-- The static style → category → keywords catalog, in source order. -/
def STYLE_HINTS : List (String × List (String × List String)) := [
  ("Modern", [
    ("colors", ["graphite gray", "beige", "chrome", "matte black", "cool taupe", "matte silver", "deep charcoal", "slate blue", "steel blue", "cool gray"]),
    ("furniture", ["sleek sofa", "minimalist glass table", "contemporary armchair", "floating entertainment unit", "platform media unit", "slim sideboard", "glass console table", "modular sectional", "low-profile couch", "tempered glass table", "metal-framed chairs", "wall-mounted cabinet", "pivoting TV stand"]),
    ("materials", ["carbon fiber", "metal", "high-gloss acrylic", "concrete", "smart fabric", "polished wood", "brushed steel", "engineered wood", "lacquered finish", "tempered glass", "high-gloss laminate", "smoked glass", "matte aluminum"]),
    ("lighting", ["recessed lighting", "LED strips", "track-integrated LEDs", "smart panel lighting", "track lighting", "cove lighting", "minimalist chandelier", "spotlights", "wall-mounted LEDs", "strip lighting behind panels", "angular sconces", "indirect lighting"]),
    ("features", ["frameless cabinets", "linear geometric accents", "AI-controlled systems", "large windows", "motion lighting", "minimal decoration", "smart home tech", "hidden storage", "glass partitions", "tech-integrated walls", "framed abstract art", "floor-to-ceiling panels", "built-in climate control", "seamless cabinetry"]),
    ("layout", ["zoned open-plan layout", "balanced modern arrangement", "clutter-free design", "zoned space", "linear flow", "central focal point", "multi-use open concept", "asymmetrical furniture grouping", "floating layout zones", "expansive seating area"])
  ]),
  ("Industrial", [
    ("colors", ["charcoal", "rust", "black", "brown", "steel gray", "raw concrete"]),
    ("furniture", ["pipe-framed seating", "metal-top coffee cart", "factory cart", "pipe shelving", "vintage cabinet", "industrial bench", "steel wheel table", "rolling stools", "drafting desk"]),
    ("materials", ["exposed brick", "riveted iron panels", "reclaimed wood", "grease-stained steel", "iron", "weathered leather", "copper accents", "metal mesh", "galvanized pipe"]),
    ("lighting", ["Edison bulbs", "metal pendant lights", "factory lamps", "exposed conduit lighting", "industrial sconces", "wire cage lighting", "pulley fixtures", "warehouse chandelier"]),
    ("features", ["exposed pipes", "high ceilings", "metal fixtures", "concrete floors", "open shelving", "raw textures", "rolling doors", "unfinished surfaces", "gear decor"]),
    ("layout", ["loft-style openness", "open floor plan", "exposed beams", "spacious interior", "minimalist storage", "zoned workspaces", "gallery-style walls"])
  ]),
  ("Scandinavian", [
    ("colors", ["white", "light gray", "pale blue", "mint green", "pastel shades", "soft beige", "clay pink"]),
    ("furniture", ["simple sofa", "wooden armchair", "light oak table", "open wood shelving", "minimalist media unit", "simple storage units", "bean bag chair", "slim writing desk", "linen bench"]),
    ("materials", ["light wood", "wool", "cotton", "natural fibers", "white painted surfaces", "felt", "bamboo", "linen blends", "oak veneer"]),
    ("lighting", ["natural light", "simple hanging lights", "modern sconces", "minimal floor lamps", "white ceiling lights", "skylights", "clean-lined table lamps", "LED bulbs", "paper lanterns"]),
    ("features", ["minimal decor", "plants", "natural textures", "functional design", "light wood floors", "modular furniture", "sculptural art pieces", "handwoven baskets", "wall pegs", "textile accents"]),
    ("layout", ["airy modular layout", "clean lines and symmetry", "focus on functionality", "relaxing furniture arrangement", "adjustable layouts", "multi-purpose spaces", "natural light maximization"])
  ]),
  ("Rustic", [
    ("colors", ["warm brown", "pine green", "deep red", "eggshell", "raw timber", "burnt orange", "amber", "moss green", "bark gray"]),
    ("furniture", ["leather sofa", "log slab table", "rocking chair", "barn wood shelves", "vintage trunk", "antique armchairs", "aged timber bench", "pine dining table", "handcrafted stools"]),
    ("materials", ["aged timber", "stone", "natural linen", "wrought iron", "natural textiles", "ceramic", "burlap", "rough cotton"]),
    ("lighting", ["wrought iron chandelier", "lantern style lights", "wooden beam lighting", "iron wall sconces", "candlelight", "antique lamps", "mason jar lamps"]),
    ("features", ["exposed beams", "stone fireplace", "wooden floors", "vintage decor", "raw nature accents", "woven baskets", "tree branch sculptures", "log mantels", "hand-hewn finishes"]),
    ("layout", ["central fireplace focus", "country-style furniture", "relaxed seating arrangement", "emphasis on natural warmth", "open kitchen area", "family-friendly design", "rug-centered layout"])
  ]),
  ("Traditional", [
    ("colors", ["burgundy", "navy", "forest green", "cream", "gold", "taupe", "mahogany", "warm beige", "dark wood tones", "rich brown", "royal blue", "antique white", "bronze", "sage green", "chocolate brown"]),
    ("furniture", ["rolled arm sofa", "ornate wood table", "wingback chairs", "mahogany sideboard", "formal dining chairs", "cabriole legs", "tufted ottoman", "claw-foot table", "Queen Anne chairs", "carved wood console", "chesterfield sofa", "bergère chair", "secretary desk", "china cabinet", "upholstered bench"]),
    ("materials", ["dark woods", "silk", "damask fabrics", "cherry wood", "velvet", "marble", "embossed leather", "brocade", "walnut wood", "embroidered fabrics", "taffeta", "oriental rugs", "brass hardware", "crystal accents", "polished bronze"]),
    ("lighting", ["crystal chandeliers", "wall sconces", "table lamps with shades", "brass fixtures", "ornate ceiling fixtures", "candelabra lights", "tiffany lamps", "pleated shade lamps", "gilded floor lamps", "library reading lamps"]),
    ("features", ["crown molding", "arched doorways", "wainscoting", "drapery panels", "fireplace mantels", "antique accents", "ceiling medallions", "built-in bookcases", "decorative pillars", "tray ceilings", "picture frame molding", "oriental carpets", "oil paintings", "gilt mirrors", "carved woodwork"]),
    ("layout", ["symmetrical layout", "formal arrangement", "central fireplace or artwork focus", "defined conversation zones", "grand entrance focus", "balanced furniture pairs", "formal dining setup", "classical proportions"])
  ]),
  ("Mid-Century Modern", [
    ("colors", ["mustard", "olive green", "burnt orange", "aqua", "walnut brown", "off-white", "teal blue", "harvest gold", "avocado green", "tangerine", "mocha brown", "seafoam green", "dusty rose", "earthy terracotta", "sage green", "warm gray", "deep turquoise", "muted coral"]),
    ("furniture", ["Eames lounge chair", "tapered leg sofa", "organic teak table", "credenza", "arc floor lamp", "tulip chair", "egg chair", "butterfly chair", "danish sideboard", "sculptural dining table", "molded plastic chairs", "floating cabinet", "platform bench", "womb chair", "bar cart", "shell chairs"]),
    ("materials", ["walnut veneer", "teak", "tanned leather", "brass", "fiberglass", "glass", "rosewood", "bent plywood", "molded plastic", "chrome", "patterned vinyl", "brushed steel", "oak veneer", "aluminum", "textured upholstery", "stainless steel", "cork"]),
    ("lighting", ["tripod lamps", "sputnik chandeliers", "globe pendants", "mod floor lamps", "atomic sconces", "starburst fixtures", "mushroom lamps", "geometric pendants", "bubble lamps", "cone wall sconces", "space-age lighting", "sculptural desk lamps", "brass accent lights"]),
    ("features", ["sunken rooms", "wall paneling", "modular storage", "built-ins", "abstract art", "geometric patterns", "floating fireplaces", "conversation pits", "room dividers", "wood slat walls", "terrazzo floors", "graphic wallpaper", "atomic motifs", "indoor planters", "statement clocks", "period artwork"]),
    ("layout", ["low-profile open design", "accent-walled zones", "natural light centered design", "split-level layout", "indoor-outdoor flow", "angular divisions", "conversation areas", "minimal space planning", "layered lighting", "floating room dividers"])
  ]),
  ("Coastal", [
    ("colors", ["ocean blue", "sandy beige", "seafoam green", "pearl white", "coral pink", "light gray", "turquoise", "navy blue", "driftwood gray", "shell pink", "aqua", "sea glass green", "warm sand", "pale yellow", "coastal fog", "azure blue", "beach grass green"]),
    ("furniture", ["slipcovered sofa", "wicker armchair", "nautical center table", "rattan seating", "bamboo console", "adirondack chair", "rope accent chair", "weathered bench", "seagrass ottoman", "white media cabinet", "woven side tables", "driftwood furniture", "coastal storage unit", "beach house sectional", "wicker trunk", "bamboo screen"]),
    ("materials", ["wicker", "rattan", "seagrass", "whitewashed wood", "jute", "linen canvas", "cotton canvas", "weathered wood", "rope", "woven bamboo", "sisal", "distressed wood", "natural fiber", "painted wood", "bleached wood", "grasscloth", "sea glass"]),
    ("lighting", ["rope pendant lights", "coastal chandeliers", "woven basket lights", "glass bottle lamps", "driftwood sconces", "nautical wall lights", "capiz shell fixtures", "lantern lights", "rattan pendants", "seagrass shade lamps", "fisherman lights", "shell fixtures", "beach glass pendants"]),
    ("features", ["shiplap walls", "weathered beams", "coastal artwork", "shell collections", "nautical accessories", "beach-themed decor", "ocean view windows", "rope accents", "natural fiber rugs", "striped textiles", "driftwood accents", "coral displays", "coastal weave baskets", "seaside photographs", "maritime antiques"]),
    ("layout", ["breezy open-concept", "indoor-outdoor flow", "panoramic windows", "casual seating groups", "light-filled rooms", "relaxed furniture placement", "outdoor living connection", "beachfront orientation", "informal gathering spaces", "wraparound seating"])
  ])
]

/-- `STYLE_HINTS.get(style_title_case)` — Python dict lookup by key. -/
def lookupHints (k : String) : Option (List (String × List String)) :=
  List.lookup k STYLE_HINTS

/-- `extract_keywords_from_styles`: per style, all category keywords,
deduplicated.  The Python code builds `list(set(keywords))`, whose
order is unspecified; only membership in the list is ever consulted. -/
def STYLE_KEYWORDS : List (String × List String) :=
  STYLE_HINTS.map fun p => (lowerStr p.1, ((p.2.map Prod.snd).flatten).dedup)

/-! ### Domain Gate (bert_validation.py lines 115-131) -/

/-- Right-hand word boundary `\b`: end of string, or a non-word char. -/
def boundaryOk : List Char → Bool
  | [] => true
  | c :: _ => !isWordChar c

/-- Match `w1` then `\s*` then `w2` then `\b`, anchored at the front. -/
def matchPair (w1 w2 : List Char) (l : List Char) : Bool :=
  match stripPre w1 l with
  | none => false
  | some r =>
    match stripPre w2 (r.dropWhile isWS) with
    | none => false
    | some r2 => boundaryOk r2

/-- Match `w` then `\b`, anchored at the front. -/
def matchOne (w : List Char) (l : List Char) : Bool :=
  match stripPre w l with
  | none => false
  | some r => boundaryOk r

/-- Left word boundary: start of string or a non-word previous char. -/
def leftBoundary : Option Char → Bool
  | none => true
  | some c => !isWordChar c

/-- `re.search`: try the front-anchored matcher at every position that
sits on a left word boundary. -/
def scanFor (m : List Char → Bool) : Option Char → List Char → Bool
  | prev, [] => leftBoundary prev && m []
  | prev, c :: t => (leftBoundary prev && m (c :: t)) || scanFor m (some c) t

/-- `re.search(r"\bw1\s*w2\b", l)` for letter-only words. -/
def hasPair (w1 w2 : String) (l : List Char) : Bool :=
  scanFor (matchPair w1.toList w2.toList) none l

/-- `re.search(r"\bw\b", l)` for a letter-only word. -/
def hasOne (w : String) (l : List Char) : Bool :=
  scanFor (matchOne w.toList) none l

/-- `is_living_room_related`: the twelve whole-word patterns of the
domain gate, checked on the lowercased prompt, in source order. -/
def is_living_room_related (prompt : String) : Bool :=
  let l := (lowerStr prompt).toList
  hasPair "living" "room" l || hasPair "sitting" "room" l || hasOne "lounge" l ||
  hasPair "family" "room" l || hasPair "living" "area" l || hasPair "sitting" "area" l ||
  hasPair "common" "area" l || hasPair "front" "room" l || hasOne "parlor" l ||
  hasOne "den" l || hasPair "great" "room" l || hasPair "reception" "room" l

/-! ### `sanitize_prompt` (bert_validation.py lines 125-131) -/

/-- A Python value passed as the prompt: a string, `None`, or any
non-string value. -/
inductive PyInput where
  | str (s : String)
  | pyNone
  | nonString
deriving Repr, DecidableEq

/-- `str.split()`: split on whitespace runs, dropping empty pieces.
`acc` holds the current word, reversed. -/
def pyWords : List Char → List Char → List (List Char)
  | [], acc => if acc.isEmpty then [] else [acc.reverse]
  | c :: t, acc =>
    if isWS c then
      (if acc.isEmpty then pyWords t [] else acc.reverse :: pyWords t [])
    else pyWords t (c :: acc)

/-- `" ".join(words)`. -/
def joinWords : List (List Char) → List Char
  | [] => []
  | [w] => w
  | w :: ws => w ++ ' ' :: joinWords ws

/-- `sanitize_prompt`: empty string for `None`/non-string input, else
`" ".join(prompt.strip().split())` (the strip is subsumed by split). -/
def sanitize_prompt : PyInput → String
  | .str s => String.mk (joinWords (pyWords s.toList []))
  | _ => ""

/-! ### Logit boosting (bert_validation.py lines 167-190)

These adjustments happen before the softmax.  They are included for
completeness of the embedding; the claims constrain the pipeline from
the softmax output onwards and quantify over that probability vector
directly (see the header comment). -/

def KEYWORD_BOOST : ℚ := mkRat 1 2

def LABEL_EXPLICIT_BOOST : ℚ := 2

/-- The keyword boost, explicit-mention boost and rustic penalty applied
to the raw logits (lines 167-190). -/
def boostedLogits (prompt : String) (logits : Fin 7 → ℚ) : Fin 7 → ℚ :=
  let lp := (lowerStr prompt).toList
  let b : Fin 7 → ℚ := fun i =>
    let kws := (List.lookup (lowerStr (labelName i)) STYLE_KEYWORDS).getD []
    logits i
      + (if kws.any fun k => containsSub (lowerStr k).toList lp then KEYWORD_BOOST else 0)
      + (if containsSub (underscoreToSpace (labelName i)).toList lp then LABEL_EXPLICIT_BOOST else 0)
  fun i =>
    if labelName i = "rustic"
        ∧ ¬ containsSub "rustic".toList lp
        ∧ ¬ ((List.lookup "rustic" STYLE_KEYWORDS).getD []).any (fun k => containsSub k.toList lp)
    then b i - 1 else b i

/-! ### Allow-list ranking and explicit-mention override
(bert_validation.py lines 196-229) -/

/-- Insert into a descending-sorted list, before any element with an
equal or smaller key: this reproduces Python's stable
`sort(key=..., reverse=True)` when the head is inserted into the
sorted tail. -/
def insertDesc (x : Fin 7 × ℚ) : List (Fin 7 × ℚ) → List (Fin 7 × ℚ)
  | [] => [x]
  | y :: t => if x.2 < y.2 then y :: insertDesc x t else x :: y :: t

/-- Stable descending sort by probability. -/
def sortDesc : List (Fin 7 × ℚ) → List (Fin 7 × ℚ)
  | [] => []
  | a :: t => insertDesc a (sortDesc t)

/-- `filtered = [(idx, probs[idx].item()) for idx in allowed_indices]`. -/
def filteredProbs (probs : Fin 7 → ℚ) : List (Fin 7 × ℚ) :=
  allowedIndices.map fun i => (i, probs i)

/-- The rank-1 and rank-2 entries of the allow-listed distribution
(lines 210-215).  The defaults of `getD` are never used: the filtered
list always has six entries. -/
def rankPair (probs : Fin 7 → ℚ) : (Fin 7 × ℚ) × (Fin 7 × ℚ) :=
  ((sortDesc (filteredProbs probs)).getD 0 (0, 0),
   (sortDesc (filteredProbs probs)).getD 1 (0, 0))

/-- The explicit-mention scan (lines 218-222): the first label, in
index order, whose name with underscores replaced by spaces occurs in
the lowercased prompt. -/
def explicitMention (lp : List Char) : Option (Fin 7) :=
  (List.finRange 7).find? fun i =>
    containsSub (underscoreToSpace (labelName i)).toList lp

/-- The rank-1 entry after the explicit-mention override (lines
224-229): if a label is explicitly mentioned, is not already rank-1,
and its probability is within 0.1 of rank-1, it replaces rank-1. -/
def rerankTop (lp : List Char) (probs : Fin 7 → ℚ) : Fin 7 × ℚ :=
  match explicitMention lp with
  | some j =>
    if j ≠ (rankPair probs).1.1 ∧ probs (rankPair probs).1.1 - probs j < mkRat 1 10
    then (j, probs j) else (rankPair probs).1
  | none => (rankPair probs).1

/-! ### Explanation synthesizer (bert_validation.py lines 241-258) -/

/-- One category of the winning style: the first keyword (in listed
order) whose lowercased text occurs in the lowercased prompt, if any —
the inner loop `break`s after the first match. -/
def matchedReason (lp : List Char) (cat : String × List String) :
    Option (String × String) :=
  (cat.2.find? fun kw => containsSub (lowerStr kw).toList lp).map fun kw => (cat.1, kw)

/-- The (category, keyword) matches over all categories of the winning
style, in category order: at most one entry per category. -/
def explainPairs (lp : List Char) (cats : List (String × List String)) :
    List (String × String) :=
  cats.filterMap (matchedReason lp)

/-- `f"mentions of {category} like '{keyword}'"`. -/
def renderReason (p : String × String) : String :=
  "mentions of " ++ p.1 ++ " like \x27" ++ p.2 ++ "\x27"

/-! ### `validate_prompt_locally` (bert_validation.py lines 133-282) -/

/-- Python `round(x, 3)` on our rational stand-in for floats:
round half to even at three decimals. -/
def pyRound3 (q : ℚ) : ℚ :=
  let x := q * 1000
  let f : ℤ := Int.floor x
  let r := x - (f : ℚ)
  ((if r < mkRat 1 2 then f else if mkRat 1 2 < r then f + 1
    else if f % 2 = 0 then f else f + 1 : ℤ) : ℚ) * mkRat 1 1000

/-- The dictionary returned by `validate_prompt_locally`.  The failure
dictionaries carry no `secondary_style`/`secondary_confidence` keys;
those fields are `none` there. -/
structure VResult where
  valid : Bool
  prompt_score : ℚ
  detected_style : String
  style_confidence : ℚ
  secondary_style : Option String := none
  secondary_confidence : Option ℚ := none
  intent : String
  style_reasons : List String
  message : String
deriving Repr, DecidableEq

/-- The common shape of the three failure dictionaries (lines 138-146,
150-158, 274-282); only `message` differs between them. -/
def invalidResult (msg : String) : VResult :=
  { valid := false, prompt_score := 0, detected_style := "unknown",
    style_confidence := 0, intent := "invalid", style_reasons := [],
    message := msg }

/-- Outcome of the classifier call (lines 161-200): the probability
vector produced by the softmax of the boosted logits, or an exception
raised by the tokenizer/model (including the `ValueError` for empty
logits), whose text ends up in the validation-error message. -/
inductive ModelOutcome where
  | ok (probs : Fin 7 → ℚ)
  | exn (msg : String)

/-- The success dictionary (lines 260-270), for winning entry `top1`,
runner-up `top2` and the winning style's Knowledge Base entry `cats`:
the explanation is the rendered category matches, or the generic
fallback when no category matched. -/
def successResult (lp : List Char) (top1 top2 : Fin 7 × ℚ)
    (cats : List (String × List String)) : VResult :=
  { valid := true, prompt_score := pyRound3 top1.2,
    detected_style := labelName top1.1, style_confidence := pyRound3 top1.2,
    secondary_style := some (labelName top2.1),
    secondary_confidence := some (pyRound3 top2.2),
    intent := "generate",
    style_reasons :=
      if (explainPairs lp cats).isEmpty
      then ["based on overall language and style structure"]
      else (explainPairs lp cats).map renderReason,
    message := "Prompt validation completed" }

/-- The classifier/re-ranker/synthesizer stages (lines 196-270) on the
lowercased prompt and the probability vector.

On the branch where the winning style has no `STYLE_HINTS` entry (the
only winning label without one is `mid-century_modern`, whose
`.title()` form `"Mid-Century_Modern"` differs from the KB key
`"Mid-Century Modern"`), line 258 of the source reads the variable
`matched_categories`, which is only assigned in the other branch; the
resulting `NameError` is caught by the enclosing `except`, which
returns the validation-error dictionary. -/
def classifyResult (lp : List Char) (probs : Fin 7 → ℚ) : VResult :=
  match lookupHints (pyTitle (labelName (rerankTop lp probs).1)) with
  | some cats => successResult lp (rerankTop lp probs) ((rankPair probs).2) cats
  | none =>
    invalidResult "Validation error: name \x27matched_categories\x27 is not defined"

/-- `validate_prompt_locally` (lines 133-282).  Stages: sanitize,
empty check, domain check, classify (the `ModelOutcome` argument),
allow-list ranking, explicit-mention override, explanation
synthesis. -/
def validate_prompt_locally (input : PyInput) (mo : ModelOutcome) : VResult :=
  if sanitize_prompt input = "" then invalidResult "Prompt is empty."
  else if !is_living_room_related (sanitize_prompt input) then
    invalidResult "Prompt must be related to living room design."
  else
    match mo with
    | .exn e => invalidResult ("Validation error: " ++ e)
    | .ok probs => classifyResult ((lowerStr (sanitize_prompt input)).toList) probs

/-! ### Backend gateway (backend_service.py)

The gateway's HTTP traffic is embedded by passing the remote service's
behaviour as explicit arguments (one response per attempt) and, where
a claim is about which calls happen, returning the trace of outbound
calls next to the result. -/

/-- A JSON object returned by the remote service.  Each field is
`none` when the key is absent from the object.  (JSON values outside
the shapes the gateway reads are irrelevant to its behaviour.) -/
structure RemoteBody where
  valid : Option Bool := none
  prompt_score : Option ℚ := none
  detected_style : Option String := none
  style_confidence : Option ℚ := none
  intent : Option String := none
  enhanced_prompt : Option String := none
  style_reasons : Option (List String) := none
  message : Option String := none
  image_url : Option String := none
  image : Option String := none
deriving Repr, DecidableEq

/-- What one `requests.post` attempt comes back with: an HTTP response
with a status code, body and optional `error` field (the field the
code reads on non-2xx; `none` also covers an unparseable body), a
timeout, or another request exception. -/
inductive HttpResp where
  | response (code : Nat) (body : RemoteBody) (errField : Option String)
  | timeout
  | exn (msg : String)
deriving Repr, DecidableEq

/-- The retry loop of `_send_request` (lines 91-124), recursing on the
number of remaining attempts.  Returns the `(result, error)` pair and
the list of sleeps performed (`time.sleep` durations, in order):
status 200 returns the body; 429 sleeps `retry_delay * (attempt + 1)`
and retries; any other status fails immediately with the server's
`error` field or a generic message; a timeout sleeps `retry_delay` and
retries; any other exception fails immediately; an exhausted loop
fails with the max-retries message. -/
def send_request_aux (resp : Nat → HttpResp) (retry_delay : ℚ) :
    Nat → Nat → (Option RemoteBody × Option String) × List ℚ
  | _, 0 => ((none, some "Maximum retry attempts reached"), [])
  | attempt, rem + 1 =>
    match resp attempt with
    | .response code body errField =>
      if code = 200 then ((some body, none), [])
      else if code = 429 then
        let r := send_request_aux resp retry_delay (attempt + 1) rem
        (r.1, retry_delay * ((attempt : ℚ) + 1) :: r.2)
      else ((none, some (errField.getD ("HTTP error " ++ toString code))), [])
    | .timeout =>
      let r := send_request_aux resp retry_delay (attempt + 1) rem
      (r.1, retry_delay :: r.2)
    | .exn m => ((none, some m), [])

/-- `_send_request` (lines 73-124): unconfigured base URL fails before
any attempt; otherwise run the retry loop from attempt 0. -/
def send_request (baseUrl : Option String) (resp : Nat → HttpResp)
    (max_retries : Nat) (retry_delay : ℚ) :
    (Option RemoteBody × Option String) × List ℚ :=
  match baseUrl with
  | none => ((none, some "Backend URL not configured"), [])
  | some _ => send_request_aux resp retry_delay 0 max_retries

/-- The legacy-shape adapter of `validate_prompt` (lines 217-228):
synthesize `valid = prompt_score > 0.5` and fill defaults for missing
fields. -/
def adapt_result (prompt : String) (r : RemoteBody) : RemoteBody :=
  { valid := some (decide (r.prompt_score.getD 0 > mkRat 1 2)),
    prompt_score := some (r.prompt_score.getD 0),
    detected_style := some (r.detected_style.getD "unknown"),
    style_confidence := some (r.style_confidence.getD 0),
    intent := some (r.intent.getD "ask"),
    enhanced_prompt := some (r.enhanced_prompt.getD prompt),
    style_reasons := some (r.style_reasons.getD ["Based on general design elements"]),
    message := some (r.message.getD "Prompt validation completed") }

/-- The remote branch of `validate_prompt` (lines 203-233), given the
`(result, error)` pair that `_send_request` produced: a dispatch error
is passed through; a body with a `valid` key is passed through
unchanged; a body keyed by `prompt_score` is adapted; anything else
(including a null body) is a format error. -/
def validate_prompt (prompt : String)
    (dispatched : Option RemoteBody × Option String) :
    Option RemoteBody × Option String :=
  match dispatched with
  | (_, some e) => (none, some e)
  | (none, none) => (none, some "Invalid response format from backend")
  | (some r, none) =>
    if r.valid.isSome then (some r, none)
    else if r.prompt_score.isSome then (some (adapt_result prompt r), none)
    else (none, some "Invalid response format from backend")

/-- Python truthiness of an optional string (`None` and `""` are
falsy). -/
def pyTruthyStr : Option String → Bool
  | none => false
  | some s => s ≠ ""

/-- Python truthiness of an optional integer (`None` and `0` are
falsy). -/
def pyTruthyInt : Option ℤ → Bool
  | none => false
  | some n => n ≠ 0

/-- The generation payload (lines 146-157); `none` means the key is
absent. -/
structure Payload where
  prompt : String
  style : Option String := none
  negative_prompt : Option String := none
  guidance_scale : Option ℚ := none
  num_inference_steps : Option ℤ := none
  seed : Option ℤ := none
deriving Repr, DecidableEq

/-- Payload construction of `generate_image` (lines 146-157):
`style` when truthy and not `"auto"`, every other optional field when
truthy — in particular `guidance_scale` is included whenever it is
non-zero, which its default `7.5` is. -/
def build_payload (prompt style : String) (guidance_scale : ℚ)
    (negative_prompt : Option String) (num_inference_steps seed : Option ℤ) :
    Payload :=
  { prompt := prompt,
    style := if style ≠ "" ∧ style ≠ "auto" then some style else none,
    negative_prompt := if pyTruthyStr negative_prompt then negative_prompt else none,
    guidance_scale := if guidance_scale ≠ 0 then some guidance_scale else none,
    num_inference_steps := if pyTruthyInt num_inference_steps then num_inference_steps else none,
    seed := if pyTruthyInt seed then seed else none }

/-- An outbound network operation of `generate_image`. -/
inductive NetCall where
  | probe
  | dispatch (endpoint : String) (payload : Payload)
deriving Repr, DecidableEq

/-- `generate_image` (lines 126-179).  `connOk` is the outcome of the
`_test_connection` re-probe, `dispatched` the outcome of
`_send_request` on the built payload (its actual range: a body or an
error).  Returns the `(result, error)` pair and the trace of outbound
operations: nothing when no base URL is configured, the probe alone
when it fails, and probe plus dispatch otherwise.  A missing
`image_url` is synthesized from an inline base64 `image`; a body with
neither is an error. -/
def generate_image (baseUrl : Option String) (connOk : Bool)
    (dispatched : Except String RemoteBody) (prompt style : String)
    (guidance_scale : ℚ) (negative_prompt : Option String)
    (num_inference_steps seed : Option ℤ) :
    (Option RemoteBody × Option String) × List NetCall :=
  match baseUrl with
  | none =>
    ((none, some "Image generation is disabled because COLAB_ENDPOINT is not configured or accessible."), [])
  | some _ =>
    if !connOk then
      ((none, some "Backend service is currently unavailable. Please try again later."), [.probe])
    else
      let payload := build_payload prompt style guidance_scale negative_prompt
        num_inference_steps seed
      let calls := [NetCall.probe, NetCall.dispatch "/generate" payload]
      match dispatched with
      | .error e => ((none, some e), calls)
      | .ok r =>
        let r2 :=
          if !pyTruthyStr r.image_url ∧ pyTruthyStr r.image then
            { r with image_url := some ("data:image/png;base64," ++ r.image.getD "") }
          else r
        if !pyTruthyStr r2.image_url then
          ((none, some "No image data in response"), calls)
        else ((some r2, none), calls)

/-- A health-probe response: a status code or a request exception. -/
inductive ProbeResp where
  | status (code : Nat)
  | netErr
deriving Repr, DecidableEq

/-- The two GETs `_test_connection` can issue. -/
inductive ProbeCall where
  | health
  | root
deriving Repr, DecidableEq

/-- `_test_connection` (lines 49-71), given the responses the
`/health` and root GETs would produce.  Returns the verdict and the
trace of GETs issued: no base URL probes nothing; a health status of
200 succeeds; any other health status falls back to the root GET
(success only on its 200); a health-request exception is caught and
fails without the root fallback.  Every exception path is caught, so
the function is total — the probe never raises. -/
def test_connection (baseUrl : Option String) (health root : ProbeResp) :
    Bool × List ProbeCall :=
  match baseUrl with
  | none => (false, [])
  | some _ =>
    match health with
    | .netErr => (false, [.health])
    | .status c =>
      if c = 200 then (true, [.health])
      else
        match root with
        | .status rc =>
          if rc = 200 then (true, [.health, .root]) else (false, [.health, .root])
        | .netErr => (false, [.health, .root])

/-! ## Helper lemmas about the ranking machinery -/

theorem mem_insertDesc {x y : Fin 7 × ℚ} :
    ∀ {l : List (Fin 7 × ℚ)}, y ∈ insertDesc x l ↔ y = x ∨ y ∈ l := by
  intro l
  induction l with
  | nil => simp [insertDesc]
  | cons a t ih =>
    unfold insertDesc
    split
    · simp only [List.mem_cons, ih]
      tauto
    · simp only [List.mem_cons]

theorem length_insertDesc (x : Fin 7 × ℚ) :
    ∀ l : List (Fin 7 × ℚ), (insertDesc x l).length = l.length + 1 := by
  intro l
  induction l with
  | nil => rfl
  | cons a t ih =>
    unfold insertDesc
    split
    · simp [ih]
    · simp

theorem mem_sortDesc {y : Fin 7 × ℚ} :
    ∀ {l : List (Fin 7 × ℚ)}, y ∈ sortDesc l ↔ y ∈ l := by
  intro l
  induction l with
  | nil => simp [sortDesc]
  | cons a t ih => simp [sortDesc, mem_insertDesc, ih]

theorem length_sortDesc :
    ∀ l : List (Fin 7 × ℚ), (sortDesc l).length = l.length := by
  intro l
  induction l with
  | nil => rfl
  | cons a t ih => simp [sortDesc, length_insertDesc, ih]

theorem getD_mem {α : Type _} :
    ∀ (l : List α) (n : Nat) (d : α), n < l.length → l.getD n d ∈ l := by
  intro l
  induction l with
  | nil => intro n d h; simp at h
  | cons a t ih =>
    intro n d h
    cases n with
    | zero => simp
    | succ m =>
      simp only [List.getD_cons_succ]
      exact List.mem_cons_of_mem _ (ih m d (by simpa using h))

theorem length_filteredProbs (probs : Fin 7 → ℚ) :
    (filteredProbs probs).length = 6 := by
  simp [filteredProbs]
  decide

theorem mem_filteredProbs {probs : Fin 7 → ℚ} {x : Fin 7 × ℚ}
    (h : x ∈ filteredProbs probs) : x.1 ∈ allowedIndices ∧ x.2 = probs x.1 := by
  unfold filteredProbs at h
  rcases List.mem_map.1 h with ⟨i, hi, rfl⟩
  exact ⟨hi, rfl⟩

theorem rankPair_fst_spec (probs : Fin 7 → ℚ) :
    (rankPair probs).1.1 ∈ allowedIndices ∧
    (rankPair probs).1.2 = probs (rankPair probs).1.1 := by
  have hlen : 0 < (sortDesc (filteredProbs probs)).length := by
    rw [length_sortDesc, length_filteredProbs]; norm_num
  have hmem := getD_mem (sortDesc (filteredProbs probs)) 0 (0, 0) hlen
  exact mem_filteredProbs (mem_sortDesc.1 hmem)

theorem rankPair_snd_spec (probs : Fin 7 → ℚ) :
    (rankPair probs).2.1 ∈ allowedIndices ∧
    (rankPair probs).2.2 = probs (rankPair probs).2.1 := by
  have hlen : 1 < (sortDesc (filteredProbs probs)).length := by
    rw [length_sortDesc, length_filteredProbs]; norm_num
  have hmem := getD_mem (sortDesc (filteredProbs probs)) 1 (0, 0) hlen
  exact mem_filteredProbs (mem_sortDesc.1 hmem)

theorem allowed_label_mem : ∀ i ∈ allowedIndices, labelName i ∈ uiLabels := by
  decide

theorem rerankTop_of_mention (lp : List Char) (probs : Fin 7 → ℚ) (i : Fin 7)
    (hexp : explicitMention lp = some i)
    (hgap : probs (rankPair probs).1.1 - probs i < mkRat 1 10) :
    rerankTop lp probs = (i, probs i) := by
  unfold rerankTop
  rw [hexp]
  show (if i ≠ (rankPair probs).1.1 ∧ probs (rankPair probs).1.1 - probs i < mkRat 1 10
        then (i, probs i) else (rankPair probs).1) = (i, probs i)
  by_cases h : i = (rankPair probs).1.1
  · rw [if_neg (by simp [h])]
    have h2 := (rankPair_fst_spec probs).2
    rw [Prod.ext_iff]
    exact ⟨h.symm, by rw [h2, ← h]⟩
  · rw [if_pos ⟨h, hgap⟩]

/-- The override either leaves the ranked winner in place or installs
the explicitly mentioned label. -/
theorem rerankTop_cases (lp : List Char) (probs : Fin 7 → ℚ) :
    rerankTop lp probs = (rankPair probs).1 ∨
    ∃ j, explicitMention lp = some j ∧ rerankTop lp probs = (j, probs j) := by
  unfold rerankTop
  rcases hexp : explicitMention lp with _ | j
  · left; rfl
  · show (if j ≠ (rankPair probs).1.1 ∧ probs (rankPair probs).1.1 - probs j < mkRat 1 10
          then (j, probs j) else (rankPair probs).1) = (rankPair probs).1 ∨
      ∃ j' : Fin 7, some j = some j' ∧
        (if j ≠ (rankPair probs).1.1 ∧ probs (rankPair probs).1.1 - probs j < mkRat 1 10
         then (j, probs j) else (rankPair probs).1) = (j', probs j')
    split
    · right; exact ⟨j, rfl, rfl⟩
    · left; rfl

/-- On a non-empty, in-domain prompt with a successful classifier run,
`validate_prompt_locally` is the classify/rank/explain stage. -/
theorem validate_ok_eq (input : PyInput) (probs : Fin 7 → ℚ)
    (h1 : sanitize_prompt input ≠ "")
    (h2 : is_living_room_related (sanitize_prompt input) = true) :
    validate_prompt_locally input (ModelOutcome.ok probs) =
      classifyResult ((lowerStr (sanitize_prompt input)).toList) probs := by
  unfold validate_prompt_locally
  rw [if_neg h1, if_neg (by simp [h2])]

/-- Every run of `validate_prompt_locally` either fails with one of the
`invalidResult` dictionaries, or went through the whole pipeline and
returns the `successResult` of the re-ranked winner. -/
theorem validate_shape (input : PyInput) (mo : ModelOutcome) :
    (∃ m, validate_prompt_locally input mo = invalidResult m) ∨
    (∃ probs cats,
      mo = ModelOutcome.ok probs ∧
      lookupHints (pyTitle (labelName
        (rerankTop ((lowerStr (sanitize_prompt input)).toList) probs).1)) = some cats ∧
      validate_prompt_locally input mo =
        successResult ((lowerStr (sanitize_prompt input)).toList)
          (rerankTop ((lowerStr (sanitize_prompt input)).toList) probs)
          ((rankPair probs).2) cats) := by
  by_cases h1 : sanitize_prompt input = ""
  · left; exact ⟨_, by unfold validate_prompt_locally; rw [if_pos h1]⟩
  · by_cases h2 : is_living_room_related (sanitize_prompt input) = true
    · cases mo with
      | exn e =>
        left
        exact ⟨_, by unfold validate_prompt_locally; rw [if_neg h1, if_neg (by simp [h2])]⟩
      | ok probs =>
        rw [validate_ok_eq input probs h1 h2]
        unfold classifyResult
        rcases hL : lookupHints (pyTitle (labelName
            (rerankTop ((lowerStr (sanitize_prompt input)).toList) probs).1)) with _ | cats
        · left; exact ⟨_, rfl⟩
        · right; exact ⟨probs, cats, rfl, hL, rfl⟩
    · left
      refine ⟨"Prompt must be related to living room design.", ?_⟩
      unfold validate_prompt_locally
      rw [if_neg h1, if_pos]
      simp only [Bool.not_eq_true] at h2
      simp [h2]

/-! ## C3 — invalid results carry `unknown` style and zero confidence -/

/-- C3: for every input prompt (including empty, out-of-domain, and
inputs whose classification raises), whenever
`validate_prompt_locally` returns a result with `valid = false`, that
result has `detected_style = "unknown"` and `style_confidence = 0`. -/
theorem invalid_result_unknown_style (input : PyInput) (mo : ModelOutcome)
    (h : (validate_prompt_locally input mo).valid = false) :
    (validate_prompt_locally input mo).detected_style = "unknown" ∧
    (validate_prompt_locally input mo).style_confidence = 0 := by
  rcases validate_shape input mo with ⟨m, hm⟩ | ⟨probs, cats, _, _, hv⟩
  · rw [hm]
    exact ⟨rfl, rfl⟩
  · rw [hv] at h
    simp [successResult] at h

/-- Witness for C3 at a concrete failing input. -/
theorem invalid_result_unknown_style_witness :
    (validate_prompt_locally PyInput.pyNone (ModelOutcome.exn "boom")).valid = false ∧
    (validate_prompt_locally PyInput.pyNone (ModelOutcome.exn "boom")).detected_style = "unknown" ∧
    (validate_prompt_locally PyInput.pyNone (ModelOutcome.exn "boom")).style_confidence = 0 :=
  ⟨by decide, invalid_result_unknown_style PyInput.pyNone (ModelOutcome.exn "boom") (by decide)⟩

/-! ## C10 — the allow-list mismatch keeps `mid-century_modern` out of
the ranking -/

/-- C10: the allow-list entry `"mid-century"` is not string-equal to
the label `"mid-century_modern"`, so the label index 2 is excluded
from `allowed_indices` and the ranking step alone never selects it:
the rank-1 and rank-2 labels always lie in the six labels
{coastal, industrial, modern, rustic, scandinavian, traditional}; the
winner can be `mid-century_modern` only when the explicit-mention
override fires on index 2, and for every prompt not triggering that
override both ranked styles lie in the six labels. -/
theorem ranking_excludes_mid_century :
    (ALLOWED_STYLES.contains "mid-century_modern" = false ∧
     ALLOWED_STYLES.contains "mid-century" = true ∧
     allowedIndices = [0, 1, 3, 4, 5, 6]) ∧
    (∀ probs : Fin 7 → ℚ,
      labelName (rankPair probs).1.1 ∈ uiLabels ∧
      labelName (rankPair probs).2.1 ∈ uiLabels) ∧
    (∀ (lp : List Char) (probs : Fin 7 → ℚ),
      labelName (rerankTop lp probs).1 = "mid-century_modern" →
      explicitMention lp = some 2) ∧
    (∀ (lp : List Char) (probs : Fin 7 → ℚ),
      explicitMention lp ≠ some 2 →
      labelName (rerankTop lp probs).1 ∈ uiLabels ∧
      labelName (rankPair probs).2.1 ∈ uiLabels) := by
  have hrank : ∀ probs : Fin 7 → ℚ,
      labelName (rankPair probs).1.1 ∈ uiLabels ∧
      labelName (rankPair probs).2.1 ∈ uiLabels := fun probs =>
    ⟨allowed_label_mem _ (rankPair_fst_spec probs).1,
     allowed_label_mem _ (rankPair_snd_spec probs).1⟩
  have hover : ∀ (lp : List Char) (probs : Fin 7 → ℚ),
      labelName (rerankTop lp probs).1 = "mid-century_modern" →
      explicitMention lp = some 2 := by
    intro lp probs h
    rcases rerankTop_cases lp probs with hc | ⟨j, hj, hc⟩
    · rw [hc] at h
      have := (hrank probs).1
      rw [h] at this
      exact absurd this (by decide)
    · rw [hc] at h
      have h2 : ∀ k : Fin 7, labelName k = "mid-century_modern" → k = 2 := by decide
      rw [h2 j h] at hj
      exact hj
  refine ⟨⟨by decide, by decide, by decide⟩, hrank, hover, ?_⟩
  intro lp probs hne
  refine ⟨?_, (hrank probs).2⟩
  rcases rerankTop_cases lp probs with hc | ⟨j, hj, hc⟩
  · rw [hc]
    exact (hrank probs).1
  · rw [hc]
    have hj2 : j ≠ 2 := fun hjj => hne (hjj ▸ hj)
    have h3 : ∀ k : Fin 7, k ≠ 2 → labelName k ∈ uiLabels := by decide
    exact h3 j hj2

/-- Witness for C10 at concrete inputs: the prompt `"cozy den"`
mentions no label, and the parts with hypotheses apply. -/
theorem ranking_excludes_mid_century_witness :
    explicitMention ("cozy den").toList ≠ some 2 ∧
    labelName (rerankTop ("cozy den").toList (fun _ => mkRat 1 7)).1 ∈ uiLabels :=
  ⟨by decide,
   (ranking_excludes_mid_century.2.2.2 ("cozy den").toList (fun _ => mkRat 1 7) (by decide)).1⟩

/-! ## C1 — the explicit-mention override -/

/-- A probability vector (softmax output) with `traditional` at 0.30
on top of the allow-listed labels and both `mid-century_modern` and
`modern` at 0.25. -/
def c1Probs : Fin 7 → ℚ :=
  fun i => [mkRat 1 20, mkRat 1 20, mkRat 1 4, mkRat 1 4, mkRat 1 20, mkRat 1 20, mkRat 3 10].getD i.val 0

/-- C1 counterexample: the prompt `"mid century modern living room"`
contains the label `mid-century_modern`'s name with all separators
replaced by spaces (the spec's own example), and the probability gap
between rank-1 (`traditional`, 0.30) and that label (0.25) is 0.05 <
0.1 — yet `detected_style` is `"modern"`, not `"mid-century_modern"`:
the code replaces only underscores when matching an explicit mention
(`label.replace("_", " ")`), so the hyphen-less prompt matches the
label `modern` (index 3) instead. -/
theorem explicit_override_counterexample :
    strContains "mid century modern"
      (lowerStr (sanitize_prompt (PyInput.str "mid century modern living room"))) = true ∧
    c1Probs (rankPair c1Probs).1.1 - c1Probs 2 < mkRat 1 10 ∧
    (validate_prompt_locally (PyInput.str "mid century modern living room")
        (ModelOutcome.ok c1Probs)).detected_style = "modern" ∧
    (validate_prompt_locally (PyInput.str "mid century modern living room")
        (ModelOutcome.ok c1Probs)).detected_style ≠ "mid-century_modern" := by
  have hd : (validate_prompt_locally (PyInput.str "mid century modern living room")
      (ModelOutcome.ok c1Probs)).detected_style = "modern" := by
    with_unfolding_all decide
  refine ⟨by decide, by with_unfolding_all decide, hd, ?_⟩
  rw [hd]
  decide

/-- C1 amended: for every in-domain, non-empty prompt, if `i` is the
first label in index order whose name with underscores replaced by
spaces occurs in the lowercased prompt (the explicit mention the code
finds), `i` is not index 2 (`mid-century_modern`, whose selection
aborts into the error path), and the probability gap between the
current rank-1 label and label `i` is below 0.1, then
`validate_prompt_locally` returns label `i` as `detected_style`, with
`valid = true`. -/
theorem explicit_override_amended (s : String) (probs : Fin 7 → ℚ) (i : Fin 7)
    (hne : sanitize_prompt (PyInput.str s) ≠ "")
    (hdom : is_living_room_related (sanitize_prompt (PyInput.str s)) = true)
    (hexp : explicitMention ((lowerStr (sanitize_prompt (PyInput.str s))).toList) = some i)
    (hi : i ≠ 2)
    (hgap : probs (rankPair probs).1.1 - probs i < mkRat 1 10) :
    (validate_prompt_locally (PyInput.str s) (ModelOutcome.ok probs)).detected_style
      = labelName i ∧
    (validate_prompt_locally (PyInput.str s) (ModelOutcome.ok probs)).valid = true := by
  rw [validate_ok_eq _ probs hne hdom]
  unfold classifyResult
  rw [rerankTop_of_mention _ probs i hexp hgap]
  fin_cases i
  · exact ⟨rfl, rfl⟩
  · exact ⟨rfl, rfl⟩
  · exact absurd rfl hi
  · exact ⟨rfl, rfl⟩
  · exact ⟨rfl, rfl⟩
  · exact ⟨rfl, rfl⟩
  · exact ⟨rfl, rfl⟩

/-- A probability vector with `modern` on top at 0.40. -/
def c1WitnessProbs : Fin 7 → ℚ :=
  fun i => [mkRat 1 20, mkRat 1 20, mkRat 1 20, mkRat 2 5, mkRat 1 20, mkRat 1 20, mkRat 7 20].getD i.val 0

/-- Witness for the amended C1 at a concrete in-domain prompt that
explicitly names `modern`. -/
theorem explicit_override_amended_witness :
    explicitMention ((lowerStr (sanitize_prompt
      (PyInput.str "a modern living room"))).toList) = some 3 ∧
    (validate_prompt_locally (PyInput.str "a modern living room")
        (ModelOutcome.ok c1WitnessProbs)).detected_style = labelName 3 ∧
    (validate_prompt_locally (PyInput.str "a modern living room")
        (ModelOutcome.ok c1WitnessProbs)).valid = true :=
  ⟨by decide,
   explicit_override_amended "a modern living room" c1WitnessProbs 3
     (by decide) (by decide) (by decide) (by decide) (by with_unfolding_all decide)⟩

/-! ## C5 — the missing-Knowledge-Base-entry fallback crashes -/

/-- A probability vector with `traditional` at 0.30 on top of the
allow-listed labels and `mid-century_modern` at 0.28, so that the
explicit-mention override installs index 2. -/
def c5Probs : Fin 7 → ℚ :=
  fun i => [mkRat 1 20, mkRat 1 20, mkRat 7 25, mkRat 1 50, mkRat 1 20, mkRat 1 20, mkRat 3 10].getD i.val 0

/-- C5: the in-domain prompt `"a mid-century modern living room"`
drives the winning label to `mid-century_modern`, which has no
`STYLE_HINTS` entry (its `.title()` form `"Mid-Century_Modern"` is not
the KB key `"Mid-Century Modern"`).  The claimed behaviour — emit the
distinct fallback reason and still return a valid result — is what
line 257 of the source sets up, but line 258 then reads the unbound
variable `matched_categories`; the `NameError` is caught by the outer
`except`, and the call degrades to the validation-error dictionary
(`valid = false`, `detected_style = "unknown"`), never surfacing the
fallback reason. -/
theorem kb_missing_entry_bug :
    (lookupHints (pyTitle (labelName 2))).isNone = true ∧
    validate_prompt_locally (PyInput.str "a mid-century modern living room")
        (ModelOutcome.ok c5Probs) =
      invalidResult "Validation error: name \x27matched_categories\x27 is not defined" := by
  exact ⟨by decide, by with_unfolding_all decide⟩

/-! ## C6 — at most one reason per category; non-empty explanations -/

theorem explainPairs_fst_sublist (lp : List Char) :
    ∀ cats : List (String × List String),
      ((explainPairs lp cats).map Prod.fst).Sublist (cats.map Prod.fst) := by
  intro cats
  induction cats with
  | nil => simp [explainPairs]
  | cons c t ih =>
    unfold explainPairs at ih ⊢
    rw [List.filterMap_cons]
    rcases h : matchedReason lp c with _ | p
    · exact ih.cons _
    · have hp : p.1 = c.1 := by
        unfold matchedReason at h
        rcases hf : c.2.find? (fun kw => containsSub (lowerStr kw).toList lp) with _ | kw
        · rw [hf] at h; simp at h
        · rw [hf] at h
          have h2 : (c.1, kw) = p := Option.some.inj h
          rw [← h2]
      simp only [List.map_cons, hp]
      exact ih.cons₂ _

/-- Each style's category names are pairwise distinct. -/
theorem hints_cats_nodup : ∀ p ∈ STYLE_HINTS, (p.2.map Prod.fst).Nodup := by
  decide

/-- C6: for every prompt and winning label with a Knowledge Base
entry, the (category, keyword) explanation matches contain at most one
entry per category (the categories of the match list are pairwise
distinct — the inner scan stops at the first keyword of each
category); and every `valid = true` result of
`validate_prompt_locally` carries a non-empty `style_reasons` list
(the generic fallback is emitted when no category matched). -/
theorem explanation_one_reason_per_category :
    (∀ (lp : List Char), ∀ p ∈ STYLE_HINTS,
      ((explainPairs lp p.2).map Prod.fst).Nodup) ∧
    (∀ (input : PyInput) (mo : ModelOutcome),
      (validate_prompt_locally input mo).valid = true →
      (validate_prompt_locally input mo).style_reasons ≠ []) := by
  constructor
  · intro lp p hp
    exact (hints_cats_nodup p hp).sublist (explainPairs_fst_sublist lp p.2)
  · intro input mo h
    rcases validate_shape input mo with ⟨m, hm⟩ | ⟨probs, cats, _, _, hv⟩
    · rw [hm] at h
      simp [invalidResult] at h
    · rw [hv]
      show (if (explainPairs ((lowerStr (sanitize_prompt input)).toList) cats).isEmpty
            then ["based on overall language and style structure"]
            else (explainPairs ((lowerStr (sanitize_prompt input)).toList) cats).map
              renderReason) ≠ []
      by_cases hp : (explainPairs ((lowerStr (sanitize_prompt input)).toList) cats).isEmpty
      · rw [if_pos hp]
        simp
      · rw [if_neg hp]
        simp only [ne_eq, List.map_eq_nil_iff]
        intro hnil
        exact hp (by rw [hnil]; rfl)

/-- Witness for C6: the first Knowledge Base entry at a concrete
prompt, and a concrete valid run. -/
theorem explanation_one_reason_per_category_witness :
    STYLE_HINTS.getD 0 ("", []) ∈ STYLE_HINTS ∧
    ((explainPairs ("a sleek sofa".toList) (STYLE_HINTS.getD 0 ("", [])).2).map
      Prod.fst).Nodup ∧
    (validate_prompt_locally (PyInput.str "a modern living room")
      (ModelOutcome.ok c1WitnessProbs)).valid = true ∧
    (validate_prompt_locally (PyInput.str "a modern living room")
      (ModelOutcome.ok c1WitnessProbs)).style_reasons ≠ [] := by
  have hmem : STYLE_HINTS.getD 0 ("", []) ∈ STYLE_HINTS :=
    getD_mem STYLE_HINTS 0 ("", []) (by decide)
  have hvalid : (validate_prompt_locally (PyInput.str "a modern living room")
      (ModelOutcome.ok c1WitnessProbs)).valid = true := by
    with_unfolding_all decide
  exact ⟨hmem,
    explanation_one_reason_per_category.1 ("a sleek sofa".toList) _ hmem,
    hvalid,
    explanation_one_reason_per_category.2 _ _ hvalid⟩

/-! ## C9 — sanitizer shape and the three distinct rejection messages -/

/-- The output shape the sanitizer guarantees: every whitespace char
is a plain space, no two adjacent whitespace chars, and no leading or
trailing whitespace. -/
def cleanChars (l : List Char) : Prop :=
  (∀ c ∈ l, isWS c = true → c = ' ') ∧
  l.Chain' (fun a b => ¬(isWS a = true ∧ isWS b = true)) ∧
  (∀ c, l.head? = some c → isWS c = false) ∧
  (∀ c, l.getLast? = some c → isWS c = false)

theorem mem_of_head?_eq {α : Type _} {l : List α} {a : α}
    (h : l.head? = some a) : a ∈ l := by
  cases l with
  | nil => simp at h
  | cons b t =>
    simp only [List.head?_cons, Option.some.injEq] at h
    rw [← h]
    exact List.mem_cons_self b t

theorem mem_of_getLast?_eq {α : Type _} {l : List α} {a : α}
    (h : l.getLast? = some a) : a ∈ l := by
  rcases List.mem_getLast?_eq_getLast (show a ∈ l.getLast? from h) with ⟨hne, he⟩
  rw [he]
  exact List.getLast_mem hne

/-- The words produced by `pyWords` are non-empty and contain no
whitespace. -/
theorem pyWords_sound : ∀ (l acc : List Char), (∀ c ∈ acc, isWS c = false) →
    ∀ w ∈ pyWords l acc, w ≠ [] ∧ ∀ c ∈ w, isWS c = false := by
  have hrev : ∀ acc : List Char, acc.isEmpty = false → (∀ c ∈ acc, isWS c = false) →
      acc.reverse ≠ [] ∧ ∀ c ∈ acc.reverse, isWS c = false := by
    intro acc ha hacc
    constructor
    · intro h
      rw [List.reverse_eq_nil_iff] at h
      rw [h] at ha
      simp at ha
    · intro c hc
      exact hacc c (List.mem_reverse.1 hc)
  intro l
  induction l with
  | nil =>
    intro acc hacc w hw
    unfold pyWords at hw
    by_cases ha : acc.isEmpty
    · rw [if_pos ha] at hw
      simp at hw
    · rw [if_neg ha] at hw
      simp only [List.mem_singleton] at hw
      rw [hw]
      exact hrev acc (by simpa using ha) hacc
  | cons c t ih =>
    intro acc hacc w hw
    unfold pyWords at hw
    by_cases hc : isWS c = true
    · rw [if_pos hc] at hw
      by_cases ha : acc.isEmpty
      · rw [if_pos ha] at hw
        exact ih [] (by simp) w hw
      · rw [if_neg ha] at hw
        rcases List.mem_cons.1 hw with hw | hw
        · rw [hw]
          exact hrev acc (by simpa using ha) hacc
        · exact ih [] (by simp) w hw
    · rw [if_neg hc] at hw
      refine ih (c :: acc) ?_ w hw
      intro d hd
      rcases List.mem_cons.1 hd with rfl | hd
      · simpa using hc
      · exact hacc d hd

theorem chain'_of_noWS (w : List Char) (h : ∀ c ∈ w, isWS c = false) :
    w.Chain' (fun a b => ¬(isWS a = true ∧ isWS b = true)) := by
  induction w with
  | nil => simp
  | cons a t ih =>
    cases t with
    | nil => simp
    | cons b t2 =>
      rw [List.chain'_cons]
      refine ⟨?_, ih (fun c hc => h c (List.mem_cons_of_mem _ hc))⟩
      intro hab
      have ha := h a (by simp)
      rw [ha] at hab
      exact absurd hab.1 (by simp)

theorem cleanChars_of_noWS (w : List Char) (h : ∀ c ∈ w, isWS c = false) :
    cleanChars w := by
  refine ⟨?_, chain'_of_noWS w h, ?_, ?_⟩
  · intro c hc hws
    rw [h c hc] at hws
    exact absurd hws (by simp)
  · intro c hc
    exact h c (mem_of_head?_eq hc)
  · intro c hc
    exact h c (mem_of_getLast?_eq hc)

theorem joinWords_ne_nil : ∀ ws : List (List Char), ws ≠ [] →
    (∀ w ∈ ws, w ≠ []) → joinWords ws ≠ [] := by
  intro ws
  match ws with
  | [] => simp
  | [w] =>
    intro _ h
    simpa [joinWords] using h w (by simp)
  | w :: w2 :: ws2 =>
    intro _ _
    show w ++ ' ' :: joinWords (w2 :: ws2) ≠ []
    simp

/-- Joining non-empty whitespace-free words with single spaces yields
a clean character list. -/
theorem joinWords_clean : ∀ ws : List (List Char),
    (∀ w ∈ ws, w ≠ [] ∧ ∀ c ∈ w, isWS c = false) → cleanChars (joinWords ws) := by
  intro ws
  induction ws with
  | nil =>
    intro _
    exact ⟨by simp [joinWords], by simp [joinWords], by simp [joinWords],
      by simp [joinWords]⟩
  | cons w ws ih =>
    intro h
    cases ws with
    | nil => exact cleanChars_of_noWS w (h w (by simp)).2
    | cons w2 ws2 =>
      have hw := h w (by simp)
      have hrest : ∀ u ∈ w2 :: ws2, u ≠ [] ∧ ∀ c ∈ u, isWS c = false :=
        fun u hu => h u (List.mem_cons_of_mem _ hu)
      have ihr := ih hrest
      have hJne : joinWords (w2 :: ws2) ≠ [] :=
        joinWords_ne_nil _ (by simp) (fun u hu => (hrest u hu).1)
      show cleanChars (w ++ ' ' :: joinWords (w2 :: ws2))
      refine ⟨?_, ?_, ?_, ?_⟩
      · intro c hc hws
        rcases List.mem_append.1 hc with hc | hc
        · rw [hw.2 c hc] at hws
          exact absurd hws (by simp)
        · rcases List.mem_cons.1 hc with rfl | hc
          · rfl
          · exact ihr.1 c hc hws
      · rw [List.chain'_append]
        refine ⟨chain'_of_noWS w hw.2, ?_, ?_⟩
        · rcases hJv : joinWords (w2 :: ws2) with _ | ⟨j, J2⟩
          · simp
          · rw [List.chain'_cons]
            constructor
            · intro hab
              have hj : isWS j = false := ihr.2.2.1 j (by rw [hJv]; rfl)
              rw [hj] at hab
              exact absurd hab.2 (by simp)
            · have hch := ihr.2.1
              rw [hJv] at hch
              exact hch
        · intro x hx y hy
          intro hab
          have hxw : x ∈ w := mem_of_getLast?_eq hx
          rw [hw.2 x hxw] at hab
          exact absurd hab.1 (by simp)
      · intro c hc
        rcases hwv : w with _ | ⟨a, t⟩
        · exact absurd hwv hw.1
        · rw [hwv] at hc
          simp only [List.cons_append, List.head?_cons, Option.some.injEq] at hc
          refine hw.2 c ?_
          rw [hwv, ← hc]
          exact List.mem_cons_self a t
      · intro c hc
        rw [List.getLast?_append_cons] at hc
        rcases hJv : joinWords (w2 :: ws2) with _ | ⟨j, J2⟩
        · exact absurd hJv hJne
        · rw [hJv, List.getLast?_cons_cons] at hc
          exact ihr.2.2.2 c (by rw [hJv]; exact hc)

theorem string_data_append (a b : String) : (a ++ b).data = a.data ++ b.data := by
  cases a
  cases b
  rfl

/-- C9: `sanitize_prompt` maps null and non-string input to the empty
string and produces trimmed, whitespace-collapsed output; a prompt
that is empty after sanitization is rejected with the empty-prompt
dictionary before the domain check runs; and the empty-input,
out-of-domain, and internal-error rejection messages are pairwise
distinct whatever the exception text. -/
theorem sanitize_and_distinct_messages :
    (sanitize_prompt PyInput.pyNone = "" ∧ sanitize_prompt PyInput.nonString = "") ∧
    (∀ s : String, cleanChars (sanitize_prompt (PyInput.str s)).toList) ∧
    (∀ (input : PyInput) (mo : ModelOutcome), sanitize_prompt input = "" →
      validate_prompt_locally input mo = invalidResult "Prompt is empty.") ∧
    (∀ e : String,
      ("Prompt is empty." : String) ≠ "Prompt must be related to living room design." ∧
      ("Prompt is empty." : String) ≠ "Validation error: " ++ e ∧
      ("Prompt must be related to living room design." : String) ≠
        "Validation error: " ++ e) := by
  refine ⟨⟨rfl, rfl⟩, ?_, ?_, ?_⟩
  · intro s
    show cleanChars (joinWords (pyWords s.toList []))
    exact joinWords_clean _ (fun w hw => pyWords_sound s.toList [] (by simp) w hw)
  · intro input mo h
    unfold validate_prompt_locally
    rw [if_pos h]
  · intro e
    refine ⟨by decide, ?_, ?_⟩
    · intro h
      have hd := congrArg String.data h
      rw [string_data_append] at hd
      have h1 : ("Prompt is empty.").data.head? = some 'P' := rfl
      have h2 : (("Validation error: ").data ++ e.data).head? = some 'V' := rfl
      rw [hd] at h1
      rw [h2] at h1
      exact absurd h1 (by decide)
    · intro h
      have hd := congrArg String.data h
      rw [string_data_append] at hd
      have h1 : ("Prompt must be related to living room design.").data.head? =
        some 'P' := rfl
      have h2 : (("Validation error: ").data ++ e.data).head? = some 'V' := rfl
      rw [hd] at h1
      rw [h2] at h1
      exact absurd h1 (by decide)

/-- Witness for C9 at concrete inputs. -/
theorem sanitize_and_distinct_messages_witness :
    sanitize_prompt (PyInput.str "   ") = "" ∧
    validate_prompt_locally (PyInput.str "   ") (ModelOutcome.exn "x") =
      invalidResult "Prompt is empty." ∧
    ("Prompt is empty." : String) ≠ "Validation error: " ++ "x" :=
  ⟨by decide,
   (sanitize_and_distinct_messages.2.2.1 (PyInput.str "   ")
     (ModelOutcome.exn "x") (by decide)),
   (sanitize_and_distinct_messages.2.2.2 "x").2.1⟩

/-! ## C2 — the retry/backoff policy of `_send_request` -/

/-- Remote behaviour 429, 429, then 200 with body `b`. -/
def c2Seq (b : RemoteBody) : Nat → HttpResp :=
  fun n => if n < 2 then HttpResp.response 429 {} none else HttpResp.response 200 b none

/-- C2: with three attempts, the sequence [429, 429, 200] succeeds
after exactly two inter-attempt sleeps of `backoff_base * 1` and
`backoff_base * 2`; any first response whose status is neither 200 nor
429 fails immediately, with zero sleeps, carrying the server-supplied
error text (or the generic HTTP-status message); and a run whose every
attempt hits 429 or a timeout ends with the distinct
"Maximum retry attempts reached" failure. -/
theorem gateway_retry_policy :
    (∀ (d : ℚ) (b : RemoteBody),
      send_request (some "url") (c2Seq b) 3 d = ((some b, none), [d * 1, d * 2])) ∧
    (∀ (d : ℚ) (b : RemoteBody) (e : Option String) (code : Nat) (rf : Nat → HttpResp),
      rf 0 = HttpResp.response code b e → code ≠ 200 → code ≠ 429 →
      send_request (some "url") rf 3 d =
        ((none, some (e.getD ("HTTP error " ++ toString code))), [])) ∧
    (∀ (d : ℚ) (rf : Nat → HttpResp),
      (∀ n, n < 3 → rf n = HttpResp.timeout ∨
        ∃ b e, rf n = HttpResp.response 429 b e) →
      (send_request (some "url") rf 3 d).1 =
        (none, some "Maximum retry attempts reached")) := by
  refine ⟨?_, ?_, ?_⟩
  · intro d b
    show send_request_aux (c2Seq b) d 0 3 = _
    simp [send_request_aux, c2Seq]
    norm_num
  · intro d b e code rf h0 h200 h429
    show send_request_aux rf d 0 3 = _
    simp [send_request_aux, h0, h200, h429]
  · intro d rf h
    obtain h0 := h 0 (by norm_num)
    obtain h1 := h 1 (by norm_num)
    obtain h2 := h 2 (by norm_num)
    show (send_request_aux rf d 0 3).1 = _
    rcases h0 with h0 | ⟨b0, e0, h0⟩ <;> rcases h1 with h1 | ⟨b1, e1, h1⟩ <;>
      rcases h2 with h2 | ⟨b2, e2, h2⟩ <;>
      simp [send_request_aux, h0, h1, h2]

/-- Witness for C2: a permanent 500 fails immediately and permanent
timeouts exhaust the retry budget. -/
theorem gateway_retry_policy_witness :
    send_request (some "url") (fun _ => HttpResp.response 500 {} none) 3 2 =
      ((none, some "HTTP error 500"), []) ∧
    (send_request (some "url") (fun _ => HttpResp.timeout) 3 2).1 =
      (none, some "Maximum retry attempts reached") :=
  ⟨gateway_retry_policy.2.1 2 {} none 500 _ rfl (by decide) (by decide),
   gateway_retry_policy.2.2 2 _ (fun _ _ => Or.inl rfl)⟩

/-! ## C4 — response normalization of `validate_prompt` -/

/-- The legacy response shape of the spec example:
`prompt_score` 0.7 and `detected_style` `"coastal"`, no `valid` key. -/
def legacyBody : RemoteBody :=
  { prompt_score := some (mkRat 7 10), detected_style := some "coastal" }

/-- C4: a body with a `valid` key passes through unchanged; the legacy
body `{"prompt_score": 0.7, "detected_style": "coastal"}` is adapted
to `valid = true` with `detected_style = "coastal"`; and a body with
neither key is a format error. -/
theorem gateway_normalization :
    (∀ (prompt : String) (r : RemoteBody), r.valid.isSome = true →
      validate_prompt prompt (some r, none) = (some r, none)) ∧
    (validate_prompt "p" (some legacyBody, none) =
      (some (adapt_result "p" legacyBody), none) ∧
      (adapt_result "p" legacyBody).valid = some true ∧
      (adapt_result "p" legacyBody).detected_style = some "coastal") ∧
    (∀ (prompt : String) (r : RemoteBody), r.valid = none → r.prompt_score = none →
      validate_prompt prompt (some r, none) =
        (none, some "Invalid response format from backend")) := by
  refine ⟨?_, ⟨by decide, by decide, by decide⟩, ?_⟩
  · intro prompt r h
    show (if r.valid.isSome = true then (some r, none)
          else if r.prompt_score.isSome = true then (some (adapt_result prompt r), none)
          else (none, some "Invalid response format from backend")) = (some r, none)
    rw [if_pos h]
  · intro prompt r h1 h2
    show (if r.valid.isSome = true then (some r, none)
          else if r.prompt_score.isSome = true then (some (adapt_result prompt r), none)
          else (none, some "Invalid response format from backend")) = _
    rw [if_neg (by simp [h1]), if_neg (by simp [h2])]

/-- Witness for C4: a pass-through body and an empty body. -/
theorem gateway_normalization_witness :
    ({ valid := some true : RemoteBody }).valid.isSome = true ∧
    validate_prompt "q" (some { valid := some true }, none) =
      (some { valid := some true }, none) ∧
    validate_prompt "q" (some {}, none) =
      (none, some "Invalid response format from backend") :=
  ⟨by decide, gateway_normalization.1 "q" _ (by decide),
   gateway_normalization.2.2 "q" {} rfl rfl⟩

/-! ## C7 — `generate_image` refusal and payload construction -/

/-- C7 counterexample: with every generation parameter at its design
default (`style = "modern"`, `guidance_scale = 7.5`, the rest absent),
the dispatched payload carries `guidance_scale = 7.5`: the code
includes `guidance_scale` whenever it is truthy, and the default `7.5`
is truthy — it is not omitted as the claim states. -/
theorem generate_image_counterexample :
    (build_payload "sofa" "modern" (mkRat 15 2) none none none).guidance_scale =
      some (mkRat 15 2) ∧
    (generate_image (some "url") true (Except.ok { image_url := some "u" })
        "sofa" "modern" (mkRat 15 2) none none none).2 =
      [NetCall.probe, NetCall.dispatch "/generate"
        (build_payload "sofa" "modern" (mkRat 15 2) none none none)] :=
  ⟨by decide, by decide⟩

/-- The outbound-call trace of a configured `generate_image` run:
nothing dispatched, the failed probe alone, or the probe followed by
exactly the dispatch of the built payload. -/
theorem generate_image_calls (u : String) (connOk : Bool)
    (dr : Except String RemoteBody) (prompt style : String) (g : ℚ)
    (neg : Option String) (steps seed : Option ℤ) :
    (generate_image (some u) connOk dr prompt style g neg steps seed).2 =
      [NetCall.probe] ∨
    (generate_image (some u) connOk dr prompt style g neg steps seed).2 =
      [NetCall.probe, NetCall.dispatch "/generate"
        (build_payload prompt style g neg steps seed)] := by
  cases dr with
  | error e =>
    by_cases hc : connOk
    · right; simp [generate_image, hc]
    · left; simp [generate_image, hc]
  | ok r =>
    by_cases hc : connOk
    · right
      simp only [generate_image, hc, Bool.not_true]
      split_ifs <;> first | rfl | simp_all
    · left; simp [generate_image, hc]

/-- C7 amended: `generate_image` refuses immediately with no outbound
call when no endpoint is configured; the payload includes `style` only
when non-empty and different from `"auto"`, `negative_prompt` only
when a non-empty string was given, `num_inference_steps` and `seed`
only when given and non-zero, and `guidance_scale` whenever non-zero —
including the design default 7.5; and whatever is dispatched is
exactly the built payload. -/
theorem generate_image_amended :
    (∀ (connOk : Bool) (dr : Except String RemoteBody) (prompt style : String)
        (g : ℚ) (neg : Option String) (steps seed : Option ℤ),
      generate_image none connOk dr prompt style g neg steps seed =
        ((none, some "Image generation is disabled because COLAB_ENDPOINT is not configured or accessible."), [])) ∧
    (∀ (prompt style : String) (g : ℚ) (neg : Option String) (steps seed : Option ℤ),
      (build_payload prompt style g neg steps seed).style =
        (if style ≠ "" ∧ style ≠ "auto" then some style else none) ∧
      (build_payload prompt style g neg steps seed).guidance_scale =
        (if g ≠ 0 then some g else none) ∧
      (build_payload prompt style g neg steps seed).negative_prompt =
        (if pyTruthyStr neg then neg else none) ∧
      (build_payload prompt style g neg steps seed).num_inference_steps =
        (if pyTruthyInt steps then steps else none) ∧
      (build_payload prompt style g neg steps seed).seed =
        (if pyTruthyInt seed then seed else none)) ∧
    (∀ (baseUrl : Option String) (connOk : Bool) (dr : Except String RemoteBody)
        (prompt style : String) (g : ℚ) (neg : Option String)
        (steps seed : Option ℤ) (pl : Payload),
      NetCall.dispatch "/generate" pl ∈
        (generate_image baseUrl connOk dr prompt style g neg steps seed).2 →
      pl = build_payload prompt style g neg steps seed) := by
  refine ⟨fun _ _ _ _ _ _ _ _ => rfl, fun _ _ _ _ _ _ => ⟨rfl, rfl, rfl, rfl, rfl⟩, ?_⟩
  intro baseUrl connOk dr prompt style g neg steps seed pl h
  cases baseUrl with
  | none => simp [generate_image] at h
  | some u =>
    rcases generate_image_calls u connOk dr prompt style g neg steps seed with ht | ht <;>
      rw [ht] at h <;> simp at h
    exact h

/-- Witness for C7 amended: the dispatched payload of a concrete
successful run is the built payload. -/
theorem generate_image_amended_witness :
    NetCall.dispatch "/generate" (build_payload "p" "modern" (mkRat 15 2) none none none) ∈
      (generate_image (some "url") true (Except.ok { image_url := some "u" })
        "p" "modern" (mkRat 15 2) none none none).2 ∧
    build_payload "p" "modern" (mkRat 15 2) none none none =
      build_payload "p" "modern" (mkRat 15 2) none none none :=
  ⟨by decide,
   generate_image_amended.2.2 (some "url") true (Except.ok { image_url := some "u" })
     "p" "modern" (mkRat 15 2) none none none _ (by decide)⟩

/-! ## C8 — the probe never verifies an unreachable endpoint -/

/-- C8: against an unreachable endpoint (every health and root
response is a non-200 status or a request error), any number of probe
calls each return `false` — the connection is never reported verified
— and the function is total, so no exception reaches the caller; an
unconfigured probe is `false` with no traffic; and a non-success
health status always falls back to the root probe before failure is
declared. -/
theorem probe_unreachable_safe :
    (∀ (url : String) (seq : Nat → ProbeResp × ProbeResp),
      (∀ k, (seq k).1 ≠ ProbeResp.status 200 ∧ (seq k).2 ≠ ProbeResp.status 200) →
      ∀ n, (test_connection (some url) (seq n).1 (seq n).2).1 = false) ∧
    (∀ h r, test_connection none h r = (false, [])) ∧
    (∀ (url : String) (c : Nat) (r : ProbeResp), c ≠ 200 →
      (test_connection (some url) (ProbeResp.status c) r).2 =
        [ProbeCall.health, ProbeCall.root]) := by
  refine ⟨?_, fun _ _ => rfl, ?_⟩
  · intro url seq hs n
    obtain ⟨h1, h2⟩ := hs n
    rcases hh : (seq n).1 with c | _
    · rw [hh] at h1
      have hc : c ≠ 200 := fun hceq => h1 (by rw [hceq])
      rcases hr : (seq n).2 with rc | _
      · rw [hr] at h2
        have hrc : rc ≠ 200 := fun hreq => h2 (by rw [hreq])
        simp [test_connection, hc, hrc]
      · simp [test_connection, hc]
    · simp [test_connection]
  · intro url c r hc
    cases r with
    | status rc => by_cases hrc : rc = 200 <;> simp [test_connection, hc, hrc]
    | netErr => simp [test_connection, hc]

/-- Witness for C8: one concrete unreachable endpoint (health 503,
root request error). -/
theorem probe_unreachable_safe_witness :
    ((ProbeResp.status 503 : ProbeResp) ≠ ProbeResp.status 200 ∧
      (ProbeResp.netErr : ProbeResp) ≠ ProbeResp.status 200) ∧
    (test_connection (some "url") (ProbeResp.status 503) ProbeResp.netErr).1 = false ∧
    (test_connection (some "url") (ProbeResp.status 503) ProbeResp.netErr).2 =
      [ProbeCall.health, ProbeCall.root] :=
  ⟨⟨by decide, by decide⟩,
   probe_unreachable_safe.1 "url" (fun _ => (ProbeResp.status 503, ProbeResp.netErr))
     (fun _ => by simp) 0,
   probe_unreachable_safe.2.2 "url" 503 ProbeResp.netErr (by decide)⟩

end ITID
